import Mathlib

/-!
Verification development for the RecruitFlow recruiting pipeline.

Shallow embedding of the core data model and operations:
  - applications/models.py   (Application.Status, Application.change_status, StatusChange)
  - applications/transitions.py
  - calls/utils.py           (map_elevenlabs_status, format_transcript, apply_call_result)
  - calls/services.py        (ElevenLabsService._submit_batch_chunk persistence,
                              _apply_placeholders)
  - webhooks/views.py        (elevenlabs_webhook, _handle_whapi_message)
  - evaluations/services.py  (ClaudeService.evaluate_call dedup, _parse_optional_datetime)
  - cvs/services.py          (_fuzzy_match_name, _process_candidate_match)
  - cvs/helpers.py           (advance_application_status)
  - scheduler/management/commands/run_scheduler.py (job registrations)

Django model instances are embedded as immutable records; a mutating method
returns the updated record together with the list of rows it inserted.
`timezone.now()` is modelled by an explicit `now : Nat` parameter.
-/

/-- Application.Status (applications/models.py). -/
inductive AppStatus where
  | pending_call
  | call_queued
  | call_in_progress
  | call_completed
  | call_failed
  | scoring
  | qualified
  | awaiting_cv
  | cv_followup_1
  | cv_followup_2
  | cv_overdue
  | cv_received
  | not_qualified
  | awaiting_cv_rejected
  | cv_received_rejected
  | callback_scheduled
  | needs_human
  | closed
deriving DecidableEq, Repr

/-- Call.Status (calls/models.py). -/
inductive CallStatus where
  | initiated
  | in_progress
  | completed
  | failed
  | no_answer
  | busy
deriving DecidableEq, Repr

/-- The TextChoices value string of an Application status. -/
def app_status_value : AppStatus → String
  | .pending_call => "pending_call"
  | .call_queued => "call_queued"
  | .call_in_progress => "call_in_progress"
  | .call_completed => "call_completed"
  | .call_failed => "call_failed"
  | .scoring => "scoring"
  | .qualified => "qualified"
  | .awaiting_cv => "awaiting_cv"
  | .cv_followup_1 => "cv_followup_1"
  | .cv_followup_2 => "cv_followup_2"
  | .cv_overdue => "cv_overdue"
  | .cv_received => "cv_received"
  | .not_qualified => "not_qualified"
  | .awaiting_cv_rejected => "awaiting_cv_rejected"
  | .cv_received_rejected => "cv_received_rejected"
  | .callback_scheduled => "callback_scheduled"
  | .needs_human => "needs_human"
  | .closed => "closed"

/-- A datetime as handled by django.utils: a timestamp plus an optional UTC
offset; tzoffset = none models a naive datetime. -/
structure PyDatetime where
  stamp : Int
  tzoffset : Option Int
deriving DecidableEq, Repr

/-- StatusChange audit row (applications/models.py). -/
structure StatusChangeRec where
  application : Nat
  from_status : AppStatus
  to_status : AppStatus
  changed_by : Option Nat
  note : String
deriving DecidableEq, Repr

/-- Application row (applications/models.py). -/
structure AppRec where
  id : Nat
  status : AppStatus
  qualified : Option Bool := none
  score : Option Nat := none
  score_notes : String := ""
  cv_received_at : Option Nat := none
  callback_scheduled_at : Option PyDatetime := none
  needs_human_reason : Option String := none
deriving DecidableEq, Repr

/-- Call row (calls/models.py). -/
structure CallRec where
  id : Nat
  application : Nat
  attempt_number : Nat
  status : CallStatus
  eleven_labs_conversation_id : Option String := none
  eleven_labs_batch_id : Option String := none
  transcript : String := ""
  summary : String := ""
  summary_title : String := ""
  recording_url : String := ""
  duration_seconds : Option Int := none
  ended_at : Option Nat := none
deriving DecidableEq, Repr

/-- Application.change_status (applications/models.py lines 87-106): if the
status is unchanged, do nothing; otherwise persist the new status and create
exactly one StatusChange row (the sidebar-counts cache invalidation has no
observable data-model effect and is not modelled). -/
def change_status (app : AppRec) (new_status : AppStatus) (changed_by : Option Nat)
    (note : String) : AppRec × List StatusChangeRec :=
  if app.status = new_status then (app, [])
  else
    ({ app with status := new_status },
     [{ application := app.id, from_status := app.status, to_status := new_status,
        changed_by := changed_by, note := note }])

/-- applications/transitions.py _default_note. -/
def default_note (status : AppStatus) : String :=
  "Automatic transition to " ++ app_status_value status

/-- applications/transitions.py transition_status. -/
def transition_status (app : AppRec) (new_status : AppStatus) (changed_by : Option Nat)
    (note : Option String) : AppRec × List StatusChangeRec :=
  change_status app new_status changed_by (note.getD (default_note new_status))

/-- applications/transitions.py set_cv_received: set cv_received_at then
transition to the CV-received status, inside one atomic unit. -/
def set_cv_received (now : Nat) (app : AppRec) (rejected : Bool) (changed_by : Option Nat)
    (note : Option String) : AppRec × List StatusChangeRec :=
  let app1 := { app with cv_received_at := some now }
  transition_status app1
    (if rejected then AppStatus.cv_received_rejected else AppStatus.cv_received)
    changed_by note

/-- applications/transitions.py set_callback_scheduled: set
callback_scheduled_at only when callback_at is not None, then transition. -/
def set_callback_scheduled (app : AppRec) (callback_at : Option PyDatetime)
    (changed_by : Option Nat) (note : Option String) : AppRec × List StatusChangeRec :=
  let app1 :=
    match callback_at with
    | some dt => { app with callback_scheduled_at := some dt }
    | none => app
  transition_status app1 AppStatus.callback_scheduled changed_by note

/-- applications/transitions.py set_needs_human. -/
def set_needs_human (app : AppRec) (reason : String) (changed_by : Option Nat)
    (note : Option String) : AppRec × List StatusChangeRec :=
  let app1 := { app with needs_human_reason := some reason }
  transition_status app1 AppStatus.needs_human changed_by note

/-- applications/transitions.py set_qualified. -/
def set_qualified (app : AppRec) (changed_by : Option Nat)
    (note : Option String) : AppRec × List StatusChangeRec :=
  transition_status app AppStatus.qualified changed_by note

/-- applications/transitions.py set_not_qualified. -/
def set_not_qualified (app : AppRec) (changed_by : Option Nat)
    (note : Option String) : AppRec × List StatusChangeRec :=
  transition_status app AppStatus.not_qualified changed_by note

/-- Python `a or b` on strings: the empty string is falsy. -/
def py_or_str (a b : String) : String := if a = "" then b else a

/-- Python str.lower, character-wise (list-based so that proofs can evaluate
it). -/
def py_lower (s : String) : String := String.mk (s.toList.map Char.toLower)

/-- Python str.strip: remove leading and trailing whitespace. -/
def py_strip (s : String) : String :=
  String.mk (((s.toList.dropWhile Char.isWhitespace).reverse.dropWhile
    Char.isWhitespace).reverse)

/-- Python str.capitalize: first character uppercased, the rest lowercased. -/
def py_capitalize (s : String) : String :=
  match s.toList with
  | [] => ""
  | c :: rest => String.mk (c.toUpper :: rest.map Char.toLower)

/-- One ElevenLabs transcript turn (a JSON object; absent keys are none). -/
structure TranscriptTurn where
  role : Option String := none
  message : Option String := none
  content : Option String := none
  text : Option String := none
deriving DecidableEq, Repr

/-- calls/utils.py map_elevenlabs_status: the _EL_STATUS_MAP lookup with
IN_PROGRESS as the default for unrecognised values. -/
def map_elevenlabs_status (raw_status : String) : CallStatus :=
  match py_lower raw_status with
  | "done" => CallStatus.completed
  | "completed" => CallStatus.completed
  | "failed" => CallStatus.failed
  | "no_answer" => CallStatus.no_answer
  | "busy" => CallStatus.busy
  | "in_progress" => CallStatus.in_progress
  | "processing" => CallStatus.in_progress
  | _ => CallStatus.in_progress

/-- Spoken text of a turn: turn.get("message") or turn.get("content") or
turn.get("text") or "", stripped (calls/utils.py format_transcript). -/
def turn_spoken_text (t : TranscriptTurn) : String :=
  py_strip (py_or_str (t.message.getD "") (py_or_str (t.content.getD "") (t.text.getD "")))

/-- calls/utils.py format_transcript. -/
def format_transcript (turns : List TranscriptTurn) : String :=
  if turns = [] then ""
  else
    let lines := turns.foldr
      (fun t acc =>
        let role := py_capitalize (t.role.getD "")
        let txt := turn_spoken_text t
        if role ≠ "" ∧ txt ≠ "" then (role ++ ": " ++ txt) :: acc else acc)
      []
    String.intercalate "\n\n" lines

/-- calls/utils.py _TERMINAL_STATUSES. -/
def TERMINAL_STATUSES : List CallStatus :=
  [CallStatus.completed, CallStatus.failed, CallStatus.no_answer, CallStatus.busy]

/-- The ElevenLabs post-call data dict, with nested keys flattened:
transcript_summary and call_summary_title live under "analysis",
call_duration_secs under "metadata". An absent key is none. -/
structure ELData where
  status : Option String := none
  transcript : List TranscriptTurn := []
  transcript_summary : Option String := none
  call_summary_title : Option String := none
  recording_url : Option String := none
  call_duration_secs : Option Int := none
  duration_seconds : Option Int := none
deriving DecidableEq, Repr

/-- Result of apply_call_result: the updated Call and Application, the
sequence of Application.status values persisted by direct save() calls,
the StatusChange rows inserted, and the returned (call_status, is_completed). -/
structure CallResultOutcome where
  call : CallRec
  app : AppRec
  status_writes : List AppStatus
  audits : List StatusChangeRec
  call_status : CallStatus
  is_completed : Bool
deriving DecidableEq, Repr

/-- calls/utils.py apply_call_result (lines 85-148): map the raw status,
persist transcript/summary/recording/duration, set ended_at when terminal,
then inside one atomic unit save the Call and write the Application status
directly (status = CALL_COMPLETED then SCORING on completion, CALL_FAILED on
failed/no_answer/busy). The duration falls back from
metadata.call_duration_secs to data.duration_seconds, with 0 falsy as in
Python `or`. No StatusChange row is created anywhere in this function, hence
audits := []. -/
def apply_call_result (now : Nat) (call : CallRec) (app : AppRec) (data : ELData) :
    CallResultOutcome :=
  let raw_status := py_lower (data.status.getD "")
  let call_status := map_elevenlabs_status raw_status
  let is_completed := decide (call_status = CallStatus.completed)
  let formatted_transcript := format_transcript data.transcript
  let duration : Option Int :=
    match data.call_duration_secs with
    | some d => if d = 0 then data.duration_seconds else some d
    | none => data.duration_seconds
  let call' : CallRec :=
    { call with
      status := call_status,
      transcript := if formatted_transcript ≠ "" then formatted_transcript else call.transcript,
      summary :=
        if data.transcript_summary.getD "" ≠ "" then data.transcript_summary.getD ""
        else call.summary,
      summary_title :=
        if data.call_summary_title.getD "" ≠ "" then data.call_summary_title.getD ""
        else call.summary_title,
      recording_url :=
        if data.recording_url.getD "" ≠ "" then data.recording_url.getD ""
        else call.recording_url,
      duration_seconds :=
        match duration with
        | some d => some d
        | none => call.duration_seconds,
      ended_at := if call_status ∈ TERMINAL_STATUSES then some now else call.ended_at }
  let branch :=
    if is_completed then
      ({ app with status := AppStatus.scoring },
       [AppStatus.call_completed, AppStatus.scoring])
    else if call_status ∈ [CallStatus.failed, CallStatus.no_answer, CallStatus.busy] then
      ({ app with status := AppStatus.call_failed }, [AppStatus.call_failed])
    else (app, ([] : List AppStatus))
  { call := call', app := branch.1, status_writes := branch.2, audits := [],
    call_status := call_status, is_completed := is_completed }

/-- Result of the persistence loop of ElevenLabsService._submit_batch_chunk. -/
structure BatchChunkOutcome where
  calls : List CallRec
  apps : List AppRec
  audits : List StatusChangeRec
deriving DecidableEq, Repr

/-- calls/services.py ElevenLabsService._submit_batch_chunk, persistence part
(lines 310-332): applications whose candidate has no phone were skipped when
building the recipients, so eligible_apps filters them out; then, atomically,
one Call row is created per eligible application (attempt_number =
app.calls.count() + 1, conversation id None, batch id set, status INITIATED)
and the application status is written directly to CALL_IN_PROGRESS. Each
input triple is (application, candidate phone, prior call count); no
StatusChange row is created. -/
def submit_batch_chunk_persist (batch_id : String)
    (applications : List (AppRec × String × Nat)) : BatchChunkOutcome :=
  let eligible_apps := applications.filter (fun t => decide (t.2.1 ≠ ""))
  { calls := eligible_apps.map (fun t =>
      { id := t.1.id, application := t.1.id, attempt_number := t.2.2 + 1,
        status := CallStatus.initiated, eleven_labs_conversation_id := none,
        eleven_labs_batch_id := some batch_id }),
    apps := eligible_apps.map (fun t => { t.1 with status := AppStatus.call_in_progress }),
    audits := [] }

/-- LLMEvaluation.Outcome (evaluations/models.py). -/
inductive EvalOutcome where
  | qualified
  | not_qualified
  | callback_requested
  | needs_human
deriving DecidableEq, Repr

/-- LLMEvaluation row (evaluations/models.py). -/
structure LLMEvaluationRec where
  id : Nat
  application : Nat
  call : Nat
  outcome : EvalOutcome
  qualified : Bool
  score : Int
deriving DecidableEq, Repr

/-- The validated fields of a parsed Claude evaluation response. -/
structure ClaudeEvalData where
  outcome : EvalOutcome
  qualified : Bool
  score : Int
deriving DecidableEq, Repr

/-- LLMEvaluation.objects.filter(call=call).first(). -/
def find_eval (evals : List LLMEvaluationRec) (call_id : Nat) : Option LLMEvaluationRec :=
  evals.find? (fun e => decide (e.call = call_id))

/-- Number of LLMEvaluation rows for one call. -/
def eval_count (evals : List LLMEvaluationRec) (call_id : Nat) : Nat :=
  (evals.filter (fun e => decide (e.call = call_id))).length

/-- Result of ClaudeService.evaluate_call: the returned evaluation, the row
this invocation created (if any), the final evaluation table, and whether the
outcome transition block ran. -/
structure EvalCallResult where
  returned : LLMEvaluationRec
  created : Option LLMEvaluationRec
  evals : List LLMEvaluationRec
  transitioned : Bool
deriving DecidableEq, Repr

/-- evaluations/services.py ClaudeService.evaluate_call, deduplication
skeleton (lines 223-231 and 310-383). `pre` is the evaluation table at the
fast-path pre-check; `concurrent` are rows inserted by other actors during
the Claude API call, so `pre ++ concurrent` is the table seen under the
select_for_update row lock. On a pre-check hit the existing row is returned
before the LLM call; on a locked re-check hit the concurrently created row is
returned and the fresh result discarded; only when neither check finds a row
is one created (with call := call_id) and the outcome transition performed.
The LLM call and JSON validation raise on failure before any row is created,
so only the successful parse (`d`) reaches this point. -/
def evaluate_call (pre concurrent : List LLMEvaluationRec) (call_id new_id app_id : Nat)
    (d : ClaudeEvalData) : EvalCallResult :=
  match find_eval pre call_id with
  | some existing =>
    { returned := existing, created := none, evals := pre ++ concurrent,
      transitioned := false }
  | none =>
    -- the locked table seen under select_for_update is pre ++ concurrent
    match find_eval (pre ++ concurrent) call_id with
    | some existing =>
      { returned := existing, created := none, evals := pre ++ concurrent,
        transitioned := false }
    | none =>
      let ev : LLMEvaluationRec :=
        { id := new_id, application := app_id, call := call_id,
          outcome := d.outcome, qualified := d.qualified, score := d.score }
      { returned := ev, created := some ev, evals := (pre ++ concurrent) ++ [ev],
        transitioned := true }

/-- The callback_at value handed to _parse_optional_datetime, classified by
how django.utils.dateparse.parse_datetime treats it: absent models null /
missing / a non-string value; unparsed models a string parse_datetime
rejects; parsed carries the datetime a valid ISO 8601 string parses to
(naive iff it had no zone designator). -/
inductive CallbackAtValue where
  | absent
  | unparsed (s : String)
  | parsed (dt : PyDatetime)
deriving DecidableEq, Repr

/-- django.utils.timezone.make_aware with the default timezone offset. -/
def make_aware (default_offset : Int) (dt : PyDatetime) : PyDatetime :=
  { dt with tzoffset := some default_offset }

/-- evaluations/services.py _parse_optional_datetime (lines 485-497): None
for a missing / non-string / unparseable value; a parsed naive datetime is
made timezone-aware with make_aware and returned. -/
def parse_optional_datetime (default_offset : Int) : CallbackAtValue → Option PyDatetime
  | CallbackAtValue.absent => none
  | CallbackAtValue.unparsed _ => none
  | CallbackAtValue.parsed dt =>
    if dt.tzoffset.isNone then some (make_aware default_offset dt) else some dt

/-- cvs/constants.py AWAITING_CV_STATUSES. -/
def AWAITING_CV_STATUSES : List AppStatus :=
  [AppStatus.awaiting_cv, AppStatus.cv_followup_1, AppStatus.cv_followup_2,
   AppStatus.cv_overdue, AppStatus.awaiting_cv_rejected]

/-- cvs/helpers.py advance_application_status: AWAITING_CV_REJECTED advances
to the rejected CV-received status, any other awaiting status to CV_RECEIVED;
returns whether the status was advanced. -/
def advance_application_status (now : Nat) (app : AppRec) :
    AppRec × List StatusChangeRec × Bool :=
  if app.status = AppStatus.awaiting_cv_rejected then
    let r := set_cv_received now app true none (some "CV received via inbox flow")
    (r.1, r.2, true)
  else if app.status ∈ AWAITING_CV_STATUSES then
    let r := set_cv_received now app false none (some "CV received via inbox flow")
    (r.1, r.2, true)
  else (app, [], false)

/-- CVUpload.MatchMethod (cvs/models.py). -/
inductive MatchMethod where
  | exact_email
  | exact_phone
  | subject_id
  | fuzzy_name
  | cv_content
  | manual
deriving DecidableEq, Repr

/-- CVUpload.Source (cvs/models.py). -/
inductive CVSource where
  | email_attachment
  | whatsapp_media
  | manual_upload
deriving DecidableEq, Repr

/-- CVUpload row (cvs/models.py). -/
structure CVUploadRec where
  application : Nat
  file_name : String
  file_path : String
  source : CVSource
  match_method : MatchMethod
  needs_review : Bool
deriving DecidableEq, Repr

/-- The result dict of _process_candidate_match when applications were
updated. -/
structure CandidateMatchResult where
  uploads : List CVUploadRec
  apps : List AppRec
  audits : List StatusChangeRec
  confidence : String
deriving DecidableEq, Repr

/-- cvs/services.py _process_candidate_match (lines 454-511): filter the
applications of the candidate by the awaiting-CV statuses; if none, return None so
the caller falls through to the next priority. Otherwise the CV file is
saved once (its UUID-prefixed relative path is the `file_path` parameter)
and, under one atomic unit, one CVUpload row is created per application (all
sharing file_path and match_method) and each application is advanced via
advance_application_status. -/
def process_candidate_match (now : Nat) (candidate_apps : List AppRec)
    (match_method : MatchMethod) (needs_review : Bool) (source : CVSource)
    (file_name file_path : String) : Option CandidateMatchResult :=
  let applications := candidate_apps.filter (fun a => decide (a.status ∈ AWAITING_CV_STATUSES))
  if applications.isEmpty then none
  else
    some
      { uploads := applications.map (fun a =>
          { application := a.id, file_name := file_name, file_path := file_path,
            source := source, match_method := match_method, needs_review := needs_review }),
        apps := applications.map (fun a => (advance_application_status now a).1),
        audits := applications.flatMap (fun a => (advance_application_status now a).2.1),
        confidence := if needs_review then "medium" else "high" }

/-- Candidate row, reduced to what the fuzzy matcher consults. -/
structure CandidateRec where
  id : Nat
  first_name : String
  last_name : String
deriving DecidableEq, Repr

/-- cvs/services.py FUZZY_NAME_THRESHOLD = 0.80, modelled as an exact
rational. -/
def FUZZY_NAME_THRESHOLD : ℚ := 80 / 100

/-- One step of the best-candidate loop of _fuzzy_match_name. -/
def fuzzy_step (ratio_of : CandidateRec → ℚ) (best : Option CandidateRec × ℚ)
    (c : CandidateRec) : Option CandidateRec × ℚ :=
  if ratio_of c > best.2 then (some c, ratio_of c) else best

/-- cvs/services.py _fuzzy_match_name (lines 379-395): best_ratio starts at
FUZZY_NAME_THRESHOLD - 0.001 and a candidate replaces the best only with a
strictly greater ratio. The SequenceMatcher ratio of the sender name against
the full name of each candidate is abstracted as the `ratio_of` argument (difflib
is an external library); the float comparisons agree with exact rational
arithmetic at every value this development evaluates them at. The same
function serves priority 4 and priority 5c. -/
def fuzzy_match_name (ratio_of : CandidateRec → ℚ) (candidates : List CandidateRec) :
    Option CandidateRec :=
  (candidates.foldl (fuzzy_step ratio_of)
    (none, FUZZY_NAME_THRESHOLD - 1 / 1000)).1

/-- Python str.replace for a nonempty pattern: scan left to right, replacing
non-overlapping occurrences. The fuel argument bounds the recursion and is
instantiated with the length of the scanned list, which suffices because
every step consumes at least one character. For an empty pattern the scan
never matches and the input is returned; the call sites below always pass a
brace-delimited token, which is nonempty. -/
def py_replace_fuel : Nat → List Char → List Char → List Char → List Char
  | 0, s, _, _ => s
  | fuel + 1, s, pat, rep =>
    match s with
    | [] => []
    | c :: rest =>
      if pat ≠ [] ∧ pat.isPrefixOf (c :: rest) then
        rep ++ py_replace_fuel fuel ((c :: rest).drop pat.length) pat rep
      else
        c :: py_replace_fuel fuel rest pat rep

/-- Python str.replace on strings. -/
def py_replace (s pat rep : String) : String :=
  String.mk (py_replace_fuel s.toList.length s.toList pat.toList rep.toList)

/-- Whether pat occurs as a contiguous substring of s (Python `pat in s`). -/
def contains_sub (pat : List Char) : List Char → Bool
  | [] => pat.isEmpty
  | c :: rest => pat.isPrefixOf (c :: rest) || contains_sub pat rest

/-- The brace-delimited placeholder token of a context key (\x7b and \x7d
are the literal brace characters). -/
def placeholder_token (key : String) : String := "\x7b" ++ key ++ "\x7d"

/-- calls/services.py _apply_placeholders (lines 375-382): for each (key,
value) of the context, in order, replace every occurrence of the token
"\x7bkey\x7d" in the template by the value; unknown placeholders are left
as-is. The context dict iterates in insertion order, modelled as an
association list. -/
def apply_placeholders (template : String) (context : List (String × String)) : String :=
  context.foldl (fun t kv => py_replace t (placeholder_token kv.1) kv.2) template

/-- An HTTP-level outcome of the ElevenLabs webhook view, together with the
observable processing effects. -/
structure WebhookResult where
  code : Nat
  marker : String
  calls : List CallRec
  apps : List AppRec
  audits : List StatusChangeRec
  call_lookup_performed : Bool
  evaluation_triggered : Bool
deriving DecidableEq, Repr

/-- The parsed JSON body of an ElevenLabs post-call webhook, with the field
extraction of the view flattened: conversation_id may come from data or the root
(view lines 109-112), user_id from conversation_initiation_client_data in
either container (_extract_batch_application_id), and the remaining fields
from the data container. -/
structure ElWebhookPayload where
  conversation_id : Option String := none
  user_id : Option Nat := none
  data : ELData := {}
deriving DecidableEq, Repr

/-- Replace one call row by id. -/
def replace_call (calls : List CallRec) (c : CallRec) : List CallRec :=
  calls.map (fun x => if x.id = c.id then c else x)

/-- Replace one application row by id. -/
def replace_app (apps : List AppRec) (a : AppRec) : List AppRec :=
  apps.map (fun x => if x.id = a.id then a else x)

/-- webhooks/views.py _bind_batch_call (lines 305-372): extract user_id; under
a row lock find the most recent INITIATED Call of that application whose
conversation id is still null (the list is ordered most-recent-first,
modelling order_by("-initiated_at")), bind the conversation id to it and
return it. None when user_id is absent or no candidate Call exists. -/
def bind_batch_call (calls : List CallRec) (payload : ElWebhookPayload)
    (conversation_id : String) : Option CallRec :=
  match payload.user_id with
  | none => none
  | some app_id =>
    match calls.find? (fun c =>
        decide (c.application = app_id ∧ c.status = CallStatus.initiated ∧
          c.eleven_labs_conversation_id = none)) with
    | none => none
    | some c => some { c with eleven_labs_conversation_id := some conversation_id }

/-- webhooks/views.py elevenlabs_webhook (lines 54-209). Signature
validation: when the secret is configured the ElevenLabs-Signature header
must be present and the HMAC check (external crypto, abstracted as
`sig_valid`) must pass, else 401; when the secret is NOT configured the view
logs a warning and continues — the `dbg` (settings.DEBUG) flag is never
consulted, mirroring the code. Then: 400 on malformed JSON (body = none);
200 no_conversation_id when the id is absent; Call lookup by conversation id
with late-binding fallback, 200 call_not_found when both fail; otherwise the
view persists the call result with the same field-by-field sequence as
calls/utils.apply_call_result (view lines 142-196 inline that sequence,
writing the Application status directly with no StatusChange row) and
triggers the Claude evaluation on completion. -/
def elevenlabs_webhook (secret : String) (_dbg : Bool) (has_sig_header sig_valid : Bool)
    (body : Option ElWebhookPayload) (calls : List CallRec) (apps : List AppRec)
    (now : Nat) : WebhookResult :=
  if secret ≠ "" ∧ ¬ has_sig_header then
    { code := 401, marker := "Missing ElevenLabs-Signature header", calls := calls,
      apps := apps, audits := [], call_lookup_performed := false,
      evaluation_triggered := false }
  else if secret ≠ "" ∧ ¬ sig_valid then
    { code := 401, marker := "signature validation failed", calls := calls, apps := apps,
      audits := [], call_lookup_performed := false, evaluation_triggered := false }
  else
    match body with
    | none =>
      { code := 400, marker := "Invalid JSON body", calls := calls, apps := apps,
        audits := [], call_lookup_performed := false, evaluation_triggered := false }
    | some payload =>
      match payload.conversation_id with
      | none =>
        { code := 200, marker := "no_conversation_id", calls := calls, apps := apps,
          audits := [], call_lookup_performed := false, evaluation_triggered := false }
      | some cid =>
        let looked_up := calls.find? (fun c =>
          decide (c.eleven_labs_conversation_id = some cid))
        let located :=
          match looked_up with
          | some c => some c
          | none => bind_batch_call calls payload cid
        match located with
        | none =>
          { code := 200, marker := "call_not_found", calls := calls, apps := apps,
            audits := [], call_lookup_performed := true, evaluation_triggered := false }
        | some call =>
          match apps.find? (fun a => decide (a.id = call.application)) with
          | none =>
            -- foreign-key integrity guarantees the application row exists;
            -- modelled as a no-op for totality
            { code := 200, marker := "ok", calls := replace_call calls call, apps := apps,
              audits := [], call_lookup_performed := true, evaluation_triggered := false }
          | some app =>
            let r := apply_call_result now call app payload.data
            { code := 200, marker := "ok", calls := replace_call calls r.call,
              apps := replace_app apps r.app, audits := r.audits,
              call_lookup_performed := true, evaluation_triggered := r.is_completed }

/-- webhooks/views.py _WHAPI_MEDIA_TYPES. -/
def WHAPI_MEDIA_TYPES : List String :=
  ["image", "document", "audio", "video", "sticker", "file"]

/-- The media object of a Whapi message (absent keys are none). -/
structure WhapiMedia where
  url : Option String := none
  link : Option String := none
  filename : Option String := none
  file_name : Option String := none
deriving DecidableEq, Repr

/-- One inbound Whapi message object (absent keys are none). -/
structure WhapiMessage where
  type : Option String := none
  from_jid : Option String := none
  body : Option String := none
  caption : Option String := none
  media : Option WhapiMedia := none
deriving DecidableEq, Repr

/-- A persistence effect performed by the Whapi message handler. -/
inductive WhapiEffect where
  | process_cv (sender file_name text : String)
  | save_reply (sender body : String)
deriving DecidableEq, Repr

/-- webhooks/views.py _handle_whapi_message (lines 510-559): for a media-type
message, resolve the media URL (url or link) and file name, download
(abstracted as the `download` argument; None models a failed download) and
feed the file into the CV matching cascade. For a text-type message the
handler only logs "(no action)"; no CandidateReply or any other row is
persisted. Any other type is ignored. -/
def handle_whapi_message (download : String → Option String) (msg : WhapiMessage) :
    List WhapiEffect :=
  let msg_type := py_lower (msg.type.getD "")
  let sender_raw := msg.from_jid.getD ""
  -- sender_raw.split("@")[0] when "@" occurs, else sender_raw: in both cases
  -- the characters before the first "@"
  let sender := String.mk (sender_raw.toList.takeWhile (fun c => c ≠ '@'))
  if msg_type ∈ WHAPI_MEDIA_TYPES then
    let media := msg.media.getD {}
    let media_url := py_or_str (media.url.getD "") (media.link.getD "")
    let file_name := py_or_str (media.filename.getD "")
      (py_or_str (media.file_name.getD "") "attachment")
    let text := py_strip (py_or_str (msg.body.getD "") (msg.caption.getD ""))
    if media_url = "" then []
    else
      match download media_url with
      | none => []
      | some _ => [WhapiEffect.process_cv sender file_name text]
  else if msg_type = "text" then
    []
  else []

/-- One scheduler.add_job registration in
scheduler/management/commands/run_scheduler.py. -/
structure JobRegistration where
  id : String
  interval_minutes : Nat
  max_instances : Nat
  coalesce_runs : Bool
  misfire_grace_time : Nat
deriving DecidableEq, Repr

/-- The complete list of scheduler.add_job calls in Command.handle
(run_scheduler.py lines 63-109), in source order. -/
def registered_jobs : List JobRegistration :=
  [{ id := "process_call_queue", interval_minutes := 5, max_instances := 1,
     coalesce_runs := true, misfire_grace_time := 60 },
   { id := "sync_stuck_calls", interval_minutes := 10, max_instances := 1,
     coalesce_runs := true, misfire_grace_time := 120 },
   { id := "check_cv_followups", interval_minutes := 60, max_instances := 1,
     coalesce_runs := true, misfire_grace_time := 300 },
   { id := "close_stale_rejected", interval_minutes := 1440, max_instances := 1,
     coalesce_runs := true, misfire_grace_time := 3600 }]

/-- The periodic job functions defined in scheduler/jobs.py (its section
headers label them Job 1 through Job 5); poll_cv_inbox is gated by the
persisted gmail_poll_enabled setting. -/
def scheduler_job_functions : List String :=
  ["process_call_queue", "sync_stuck_calls", "check_cv_followups",
   "close_stale_rejected", "poll_cv_inbox"]

/-! Concrete fixtures used by the counterexamples and witnesses below. -/

/-- An INITIATED call awaiting its first result. -/
def fixture_call_initiated : CallRec :=
  { id := 10, application := 1, attempt_number := 1, status := CallStatus.initiated }

/-- An application currently in CALL_IN_PROGRESS. -/
def fixture_app_in_progress : AppRec := { id := 1, status := AppStatus.call_in_progress }

/-- A webhook data dict reporting status done. -/
def fixture_data_done : ELData := { status := some "done" }

/-- A call already in the terminal COMPLETED status. -/
def fixture_call_completed : CallRec :=
  { id := 11, application := 2, attempt_number := 1, status := CallStatus.completed }

/-- An application in SCORING (its call completed). -/
def fixture_app_scoring : AppRec := { id := 2, status := AppStatus.scoring }

/-- A webhook data dict reporting status failed. -/
def fixture_data_failed : ELData := { status := some "failed" }

/-- The payload of the repository test
test_elevenlabs_fails_hard_in_production_when_secret_missing: a valid JSON
body whose data carries conversation_id conv_x. -/
def fixture_payload_conv_x : ElWebhookPayload := { conversation_id := some "conv_x" }

/-- The text message of the repository test
test_whapi_text_message_creates_candidate_reply. -/
def fixture_whapi_text_msg : WhapiMessage :=
  { type := some "text", from_jid := some "+40700000001@s.whatsapp.net",
    body := some "Hello, I have a question about my application." }

/-- A pre-existing evaluation row for call 7. -/
def fixture_eval_row : LLMEvaluationRec :=
  { id := 100, application := 3, call := 7, outcome := EvalOutcome.qualified,
    qualified := true, score := 90 }

/-- A fresh parse result that would duplicate fixture_eval_row. -/
def fixture_eval_data : ClaudeEvalData :=
  { outcome := EvalOutcome.qualified, qualified := true, score := 88 }

/-- An application in SCORING about to receive a callback outcome. -/
def fixture_app_for_callback : AppRec := { id := 4, status := AppStatus.scoring }

/-- A naive parsed callback datetime (no zone designator). -/
def fixture_naive_dt : PyDatetime := { stamp := 1000, tzoffset := none }

/-- Two applications of one candidate, both in awaiting-CV statuses: one on
the qualified path, one on the rejected path. -/
def fixture_awaiting_apps : List AppRec :=
  [{ id := 20, status := AppStatus.awaiting_cv },
   { id := 21, status := AppStatus.awaiting_cv_rejected }]

/-- The CandidateMatchResult produced by process_candidate_match on
fixture_awaiting_apps at now = 50 with an exact-email match. -/
def fixture_match_result : CandidateMatchResult :=
  { uploads :=
      [{ application := 20, file_name := "cv.pdf", file_path := "cvs/u.pdf",
         source := CVSource.email_attachment, match_method := MatchMethod.exact_email,
         needs_review := false },
       { application := 21, file_name := "cv.pdf", file_path := "cvs/u.pdf",
         source := CVSource.email_attachment, match_method := MatchMethod.exact_email,
         needs_review := false }],
    apps :=
      [{ id := 20, status := AppStatus.cv_received, cv_received_at := some 50 },
       { id := 21, status := AppStatus.cv_received_rejected, cv_received_at := some 50 }],
    audits :=
      [{ application := 20, from_status := AppStatus.awaiting_cv,
         to_status := AppStatus.cv_received, changed_by := none,
         note := "CV received via inbox flow" },
       { application := 21, from_status := AppStatus.awaiting_cv_rejected,
         to_status := AppStatus.cv_received_rejected, changed_by := none,
         note := "CV received via inbox flow" }],
    confidence := "high" }

/-- A candidate in the awaiting-CV fuzzy-match pool. -/
def fixture_pool_candidate : CandidateRec :=
  { id := 30, first_name := "Ana", last_name := "Pop" }

/-- A placeholder context in the insertion order of
_build_placeholder_context, where the candidate name field literally contains
the position-title token. -/
def fixture_ctx_forward : List (String × String) :=
  [("candidate_name", placeholder_token "position_title"),
   ("position_title", "Engineer")]

/-- The same placeholder context with the two entries in the opposite
order. -/
def fixture_ctx_reversed : List (String × String) :=
  [("position_title", "Engineer"),
   ("candidate_name", placeholder_token "position_title")]

/-- A realistic full placeholder context (all six documented prompt keys). -/
def fixture_ctx_full : List (String × String) :=
  [("candidate_name", "Ana Pop"), ("candidate_first_name", "Ana"),
   ("candidate_email", "ana@example.com"), ("position_title", "Sales Rep"),
   ("position_description", "Role"), ("form_answers", "Q: A")]

/-! Helper lemmas (shared; not tied to a single claim). -/

/-- The ElevenLabs webhook view never inserts a StatusChange row on any of
its paths: every application-status write in the view is a direct save(). -/
theorem elevenlabs_webhook_audits_nil (secret : String) (dbg has_sig_header sig_valid : Bool)
    (body : Option ElWebhookPayload) (calls : List CallRec) (apps : List AppRec) (now : Nat) :
    (elevenlabs_webhook secret dbg has_sig_header sig_valid body calls apps now).audits = [] := by
  unfold elevenlabs_webhook
  repeat' first
    | rfl
    | split
    | (simp only []; split)

/-- Claim C1 (counterexample): applying the call-result reducer to an
INITIATED call whose webhook reports status done changes the application
status (two persisted writes: CALL_COMPLETED then SCORING) yet inserts no
StatusChange row at all, so a change of the status field on this code path
produces no audit entry, contradicting the claim. -/
theorem apply_call_result_status_change_without_audit :
    (apply_call_result 100 fixture_call_initiated fixture_app_in_progress
        fixture_data_done).app.status ≠ fixture_app_in_progress.status
    ∧ (apply_call_result 100 fixture_call_initiated fixture_app_in_progress
        fixture_data_done).status_writes.length = 2
    ∧ (apply_call_result 100 fixture_call_initiated fixture_app_in_progress
        fixture_data_done).audits = [] := by
  decide

/-- Claim C1 (amended): a status change made through
Application.change_status produces exactly one StatusChange row (none when
the status is unchanged), while the call-result reducer, the batch-submission
persistence loop and the webhook view write the status directly and produce
no StatusChange rows. -/
theorem transition_api_audit_accounting :
    ∀ (app : AppRec) (s : AppStatus) (cb : Option Nat) (note : String) (now : Nat)
      (call : CallRec) (app2 : AppRec) (d : ELData) (bid : String)
      (batch : List (AppRec × String × Nat)) (secret : String)
      (dbg hs sv : Bool) (body : Option ElWebhookPayload)
      (calls : List CallRec) (apps : List AppRec),
      (change_status app s cb note).2.length = (if s = app.status then 0 else 1)
      ∧ (change_status app s cb note).1.status = s
      ∧ (apply_call_result now call app2 d).audits = []
      ∧ (submit_batch_chunk_persist bid batch).audits = []
      ∧ (elevenlabs_webhook secret dbg hs sv body calls apps now).audits = [] := by
  intro app s cb note now call app2 d bid batch secret dbg hs sv body calls apps
  refine ⟨?_, ?_, rfl, rfl, elevenlabs_webhook_audits_nil secret dbg hs sv body calls apps now⟩
  · by_cases h : app.status = s
    · simp [change_status, h]
    · simp [change_status, h, Ne.symm h]
  · by_cases h : app.status = s
    · simp [change_status, h]
    · simp [change_status, h]

/-- Claim C5 (counterexample): a Call already in the terminal COMPLETED
status, when fed a later payload reporting status failed, has its status
overwritten to FAILED — no code path forbids transitions from a terminal
Call status. -/
theorem terminal_call_overwritten_by_conflicting_payload :
    fixture_call_completed.status ∈ TERMINAL_STATUSES
    ∧ (apply_call_result 200 fixture_call_completed fixture_app_scoring
        fixture_data_failed).call.status = CallStatus.failed
    ∧ (apply_call_result 200 fixture_call_completed fixture_app_scoring
        fixture_data_failed).call.status ≠ fixture_call_completed.status := by
  decide

/-- Claim C5 (amended): the reducer sets the Call status to the mapped
payload status unconditionally, whatever the prior status; consequently
re-applying the same payload leaves the status unchanged (idempotent on the
status field), but a payload mapping to a different status overwrites even a
terminal status. -/
theorem apply_call_result_sets_mapped_status :
    ∀ (now now2 : Nat) (call : CallRec) (app app2 : AppRec) (d : ELData),
      (apply_call_result now call app d).call.status =
        map_elevenlabs_status (py_lower (d.status.getD ""))
      ∧ (apply_call_result now2 (apply_call_result now call app d).call app2 d).call.status =
          (apply_call_result now call app d).call.status := by
  intro now now2 call app app2 d
  exact ⟨rfl, rfl⟩

/-- Claim C3 (counterexample): poll_cv_inbox is one of the job functions of
scheduler/jobs.py but Command.handle registers only four jobs with the
scheduler runtime, and poll_cv_inbox is not among them — the claimed fifth
registration does not exist. -/
theorem poll_cv_inbox_not_registered :
    "poll_cv_inbox" ∈ scheduler_job_functions
    ∧ "poll_cv_inbox" ∉ registered_jobs.map JobRegistration.id
    ∧ registered_jobs.length ≠ 5 := by
  decide

/-- Claim C3 (amended): the scheduler registers exactly four periodic jobs —
dispatch (process_call_queue) every 5 minutes, reconciliation
(sync_stuck_calls) every 10 minutes, CV follow-ups (check_cv_followups)
every 60 minutes and the stale-close sweep (close_stale_rejected) every 24
hours — each single-instance and coalescing; the gated mailbox-polling job
poll_cv_inbox is defined in scheduler/jobs.py but is not registered with the
scheduler runtime. -/
theorem registered_jobs_are_four :
    registered_jobs.map (fun j => (j.id, j.interval_minutes)) =
      [("process_call_queue", 5), ("sync_stuck_calls", 10),
       ("check_cv_followups", 60), ("close_stale_rejected", 1440)]
    ∧ (∀ j ∈ registered_jobs, j.max_instances = 1 ∧ j.coalesce_runs = true)
    ∧ "poll_cv_inbox" ∈ scheduler_job_functions
    ∧ "poll_cv_inbox" ∉ registered_jobs.map JobRegistration.id := by
  refine ⟨rfl, ?_, by decide, by decide⟩
  decide

/-- Claim C4: with the webhook secret unconfigured the endpoint does NOT
return 500 and does NOT stop: for either value of settings.DEBUG it skips
signature validation with a warning, proceeds to parse the payload of the
repository test test_elevenlabs_fails_hard_in_production_when_secret_missing,
performs the Call lookup (processing the payload), and answers 200
call_not_found — the repository test expects 500 server_misconfigured with
no processing, so the code contradicts its own test suite. -/
theorem missing_secret_processes_payload :
    ∀ dbg : Bool,
      (elevenlabs_webhook "" dbg false false (some fixture_payload_conv_x) [] [] 0).code = 200
      ∧ (elevenlabs_webhook "" dbg false false (some fixture_payload_conv_x) [] [] 0).marker =
          "call_not_found"
      ∧ (elevenlabs_webhook "" dbg false false (some fixture_payload_conv_x) [] []
          0).call_lookup_performed = true
      ∧ (elevenlabs_webhook "" dbg false false (some fixture_payload_conv_x) [] [] 0).code ≠ 500 := by
  intro dbg
  refine ⟨rfl, rfl, rfl, ?_⟩
  cases dbg <;> decide

/-- Claim C7: the Whapi handler performs no persistence at all for an inbound
text message — the text branch only logs "(no action)" — so the message body
of the repository test test_whapi_text_message_creates_candidate_reply is
never saved as a CandidateReply, whatever the media downloader returns; the
code contradicts its own test suite. -/
theorem whapi_text_message_no_action :
    ∀ download : String → Option String,
      handle_whapi_message download fixture_whapi_text_msg = [] := by
  intro download
  rfl

/-- If pat does not occur in c :: rest then it is neither a prefix of
c :: rest nor an occurrence in rest. -/
theorem contains_sub_cons_false {pat : List Char} {c : Char} {rest : List Char}
    (h : contains_sub pat (c :: rest) = false) :
    pat.isPrefixOf (c :: rest) = false ∧ contains_sub pat rest = false := by
  simpa [contains_sub, Bool.or_eq_false_iff] using h

/-- A scan that never matches returns its input unchanged. -/
theorem py_replace_fuel_no_occurrence :
    ∀ (fuel : Nat) (s pat rep : List Char), s.length ≤ fuel →
      contains_sub pat s = false → py_replace_fuel fuel s pat rep = s := by
  intro fuel
  induction fuel with
  | zero => intro s pat rep _ _; rfl
  | succ n ih =>
    intro s pat rep hlen hocc
    cases s with
    | nil => rfl
    | cons c rest =>
      obtain ⟨hpre, hrest⟩ := contains_sub_cons_false hocc
      show (if pat ≠ [] ∧ pat.isPrefixOf (c :: rest) = true then
          rep ++ py_replace_fuel n (List.drop pat.length (c :: rest)) pat rep
        else c :: py_replace_fuel n rest pat rep) = c :: rest
      rw [if_neg]
      · rw [ih rest pat rep (by simpa using Nat.le_of_succ_le_succ hlen) hrest]
      · intro hcontra
        rw [hpre] at hcontra
        exact absurd hcontra.2 (by simp)

/-- py_replace with a pattern that does not occur leaves the string
unchanged. -/
theorem py_replace_no_occurrence (s pat rep : String)
    (h : contains_sub pat.toList s.toList = false) : py_replace s pat rep = s := by
  unfold py_replace
  rw [py_replace_fuel_no_occurrence s.toList.length s.toList pat.toList rep.toList le_rfl h]
  cases s
  rfl

/-- Claim C10 (counterexample): substitution is order-dependent when a
substituted value contains the text of another token. With the
candidate-name value literally containing the position-title token, applying
the context in its insertion order yields "Engineer" (the injected token is
substituted by the later replacement), while the reversed order leaves the
injected token intact — two different results for the same template and the
same token/value pairs. -/
theorem apply_placeholders_order_dependent :
    apply_placeholders (placeholder_token "candidate_name") fixture_ctx_forward = "Engineer"
    ∧ apply_placeholders (placeholder_token "candidate_name") fixture_ctx_reversed =
        placeholder_token "position_title"
    ∧ apply_placeholders (placeholder_token "candidate_name") fixture_ctx_forward ≠
        apply_placeholders (placeholder_token "candidate_name") fixture_ctx_reversed := by
  decide

/-- A template containing no occurrence of any context token is returned
unchanged by the whole substitution pass. -/
theorem apply_placeholders_no_occurrence :
    ∀ (template : String) (context : List (String × String)),
      (∀ kv ∈ context,
        contains_sub (placeholder_token kv.1).toList template.toList = false) →
      apply_placeholders template context = template := by
  intro template context
  induction context with
  | nil => intro _; rfl
  | cons kv rest ih =>
    intro h
    unfold apply_placeholders at ih ⊢
    rw [List.foldl_cons,
      py_replace_no_occurrence template (placeholder_token kv.1) kv.2 (h kv (by simp))]
    exact ih (fun kv2 h2 => h kv2 (by simp [h2]))

/-- Claim C10 (amended): substitution is literal and raises no error — a
single context entry is applied by plain string replacement of its
brace-delimited token; a whole context is applied sequentially in its fixed
insertion order, so substituting a concatenated context equals substituting
its two parts in order; and a template containing no occurrence of any
context token — in particular one holding only unknown tokens — is returned
unchanged. (Order-independence does not hold in general: the counterexample
shows two orders producing different results.) -/
theorem apply_placeholders_literal_sequential :
    ∀ (template : String) (context context2 : List (String × String)) (k v : String),
      ((∀ kv ∈ context,
          contains_sub (placeholder_token kv.1).toList template.toList = false) →
        apply_placeholders template context = template)
      ∧ apply_placeholders template (context ++ context2) =
          apply_placeholders (apply_placeholders template context) context2
      ∧ apply_placeholders template [(k, v)] =
          py_replace template (placeholder_token k) v := by
  intro template context context2 k v
  refine ⟨apply_placeholders_no_occurrence template context, ?_, rfl⟩
  unfold apply_placeholders
  rw [List.foldl_append]

/-- Witness for the amended C10 theorem at concrete inputs: a template
holding only an unknown token survives the full six-key prompt context
unchanged; substitution composes sequentially over a concatenation of that
context with another; and a single entry acts as one plain replacement. -/
theorem apply_placeholders_literal_sequential_witness :
    apply_placeholders (placeholder_token "unknown_token" ++ " hello") fixture_ctx_full =
      placeholder_token "unknown_token" ++ " hello"
    ∧ apply_placeholders (placeholder_token "unknown_token" ++ " hello")
        (fixture_ctx_full ++ fixture_ctx_forward) =
        apply_placeholders
          (apply_placeholders (placeholder_token "unknown_token" ++ " hello")
            fixture_ctx_full)
          fixture_ctx_forward
    ∧ apply_placeholders (placeholder_token "unknown_token" ++ " hello")
        [("position_title", "Engineer")] =
        py_replace (placeholder_token "unknown_token" ++ " hello")
          (placeholder_token "position_title") "Engineer" := by
  have h := apply_placeholders_literal_sequential
    (placeholder_token "unknown_token" ++ " hello") fixture_ctx_full fixture_ctx_forward
    "position_title" "Engineer"
  exact ⟨h.1 (by decide), h.2.1, h.2.2⟩

/-- Claim C8 (counterexample): a timezone-naive parsed callback_at value does
NOT result in a null callback_scheduled_at — _parse_optional_datetime makes
the naive datetime aware (default offset here 120 minutes east) and the
dispatcher stores it. -/
theorem naive_callback_datetime_not_null :
    fixture_naive_dt.tzoffset = none
    ∧ parse_optional_datetime 120 (CallbackAtValue.parsed fixture_naive_dt) =
        some { stamp := 1000, tzoffset := some 120 }
    ∧ (set_callback_scheduled fixture_app_for_callback
        (parse_optional_datetime 120 (CallbackAtValue.parsed fixture_naive_dt)) none
        (some "Claude outcome: callback_requested")).1.callback_scheduled_at ≠ none := by
  decide

/-- Claim C8 (amended): for outcome CALLBACK_REQUESTED the application always
transitions to CALLBACK_SCHEDULED; callback_scheduled_at is set to the
parsed datetime, where a timezone-naive value is made aware in the default
timezone rather than dropped; only a missing, non-string or unparseable
callback_at yields None, in which case callback_scheduled_at is left
unchanged (null in the normal flow); every stored datetime is
timezone-aware. -/
theorem callback_outcome_spec :
    ∀ (off : Int) (app : AppRec) (v : CallbackAtValue) (cb : Option Nat)
      (note : Option String),
      (set_callback_scheduled app (parse_optional_datetime off v) cb note).1.status =
        AppStatus.callback_scheduled
      ∧ (∀ dt, parse_optional_datetime off v = some dt → dt.tzoffset.isSome = true)
      ∧ (∀ dt, v = CallbackAtValue.parsed dt →
          parse_optional_datetime off v =
            some (if dt.tzoffset.isNone then make_aware off dt else dt))
      ∧ (parse_optional_datetime off CallbackAtValue.absent = none)
      ∧ (∀ s, parse_optional_datetime off (CallbackAtValue.unparsed s) = none)
      ∧ (parse_optional_datetime off v = none →
          (set_callback_scheduled app (parse_optional_datetime off v) cb
            note).1.callback_scheduled_at = app.callback_scheduled_at) := by
  intro off app v cb note
  refine ⟨?_, ?_, ?_, rfl, fun s => rfl, ?_⟩
  · unfold set_callback_scheduled transition_status change_status
    cases parse_optional_datetime off v <;> simp <;> split <;> simp_all
  · intro dt hdt
    cases v with
    | absent => simp [parse_optional_datetime] at hdt
    | unparsed s => simp [parse_optional_datetime] at hdt
    | parsed dt0 =>
      simp only [parse_optional_datetime] at hdt
      by_cases hn : dt0.tzoffset.isNone = true
      · rw [if_pos hn] at hdt
        cases hdt
        simp [make_aware]
      · rw [if_neg hn] at hdt
        cases hdt
        cases h0 : dt.tzoffset with
        | none => exact absurd (by simp [Option.isNone, h0]) hn
        | some z => simp [Option.isSome, h0]
  · intro dt hdt
    cases hdt
    simp only [parse_optional_datetime]
    by_cases hn : dt.tzoffset.isNone = true
    · rw [if_pos hn, if_pos hn]
    · rw [if_neg hn, if_neg hn]
  · intro hnone
    rw [hnone]
    show (transition_status app AppStatus.callback_scheduled cb note).1.callback_scheduled_at =
      app.callback_scheduled_at
    unfold transition_status change_status
    split <;> rfl

/-- Witness for the amended C8 theorem at a concrete input: the naive
fixture datetime is made aware and the application ends in
CALLBACK_SCHEDULED. -/
theorem callback_outcome_spec_witness :
    (set_callback_scheduled fixture_app_for_callback
      (parse_optional_datetime 120 (CallbackAtValue.parsed fixture_naive_dt)) none
      none).1.status = AppStatus.callback_scheduled
    ∧ parse_optional_datetime 120 (CallbackAtValue.parsed fixture_naive_dt) =
        some (if fixture_naive_dt.tzoffset.isNone then make_aware 120 fixture_naive_dt
          else fixture_naive_dt) := by
  have h := callback_outcome_spec 120 fixture_app_for_callback
    (CallbackAtValue.parsed fixture_naive_dt) none none
  exact ⟨h.1, h.2.2.1 fixture_naive_dt rfl⟩

/-- If no candidate beats the running best, the loop leaves the accumulator
unchanged. -/
theorem fuzzy_fold_no_update (ratio_of : CandidateRec → ℚ) :
    ∀ (l : List CandidateRec) (b : Option CandidateRec × ℚ),
      (∀ c ∈ l, ratio_of c ≤ b.2) → l.foldl (fuzzy_step ratio_of) b = b := by
  intro l
  induction l with
  | nil => intro b _; rfl
  | cons a t ih =>
    intro b h
    have hstep : fuzzy_step ratio_of b a = b := by
      unfold fuzzy_step
      rw [if_neg (not_lt.mpr (h a (by simp)))]
    rw [List.foldl_cons, hstep]
    exact ih b (fun c hc => h c (by simp [hc]))

/-- The running best ratio never decreases. -/
theorem fuzzy_fold_snd_mono (ratio_of : CandidateRec → ℚ) :
    ∀ (l : List CandidateRec) (b : Option CandidateRec × ℚ),
      b.2 ≤ (l.foldl (fuzzy_step ratio_of) b).2 := by
  intro l
  induction l with
  | nil => intro b; exact le_rfl
  | cons a t ih =>
    intro b
    rw [List.foldl_cons]
    refine le_trans ?_ (ih (fuzzy_step ratio_of b a))
    unfold fuzzy_step
    split
    · exact le_of_lt (by assumption)
    · exact le_rfl

/-- The ratio of every processed candidate is bounded by the final running best. -/
theorem fuzzy_fold_snd_ge_mem (ratio_of : CandidateRec → ℚ) :
    ∀ (l : List CandidateRec) (b : Option CandidateRec × ℚ),
      ∀ c ∈ l, ratio_of c ≤ (l.foldl (fuzzy_step ratio_of) b).2 := by
  intro l
  induction l with
  | nil => intro b c hc; simp at hc
  | cons a t ih =>
    intro b c hc
    rw [List.foldl_cons]
    rcases List.mem_cons.mp hc with h | h
    · subst h
      refine le_trans ?_ (fuzzy_fold_snd_mono ratio_of t (fuzzy_step ratio_of b c))
      unfold fuzzy_step
      split
      · exact le_rfl
      · exact not_lt.mp (by assumption)
    · exact ih (fuzzy_step ratio_of b a) c h

/-- As soon as some candidate strictly beats the running best, the loop ends
with a selected candidate carrying the final best ratio. -/
theorem fuzzy_fold_update (ratio_of : CandidateRec → ℚ) :
    ∀ (l : List CandidateRec) (b : Option CandidateRec × ℚ),
      (∃ c ∈ l, b.2 < ratio_of c) →
      ∃ c ∈ l, l.foldl (fuzzy_step ratio_of) b = (some c, ratio_of c) := by
  intro l
  induction l with
  | nil => intro b h; simp at h
  | cons a t ih =>
    intro b h
    by_cases hgt : b.2 < ratio_of a
    · have hstep : fuzzy_step ratio_of b a = (some a, ratio_of a) := by
        unfold fuzzy_step; rw [if_pos hgt]
      rw [List.foldl_cons, hstep]
      by_cases h2 : ∃ c ∈ t, ratio_of a < ratio_of c
      · obtain ⟨c, hct, hres⟩ := ih (some a, ratio_of a) h2
        exact ⟨c, by simp [hct], hres⟩
      · push_neg at h2
        rw [fuzzy_fold_no_update ratio_of t (some a, ratio_of a) h2]
        exact ⟨a, by simp, rfl⟩
    · have hstep : fuzzy_step ratio_of b a = b := by
        unfold fuzzy_step; rw [if_neg hgt]
      rw [List.foldl_cons, hstep]
      obtain ⟨c, hc, hbc⟩ := h
      rcases List.mem_cons.mp hc with hh | hh
      · subst hh; exact absurd hbc hgt
      · obtain ⟨c2, hc2, hres⟩ := ih b ⟨c, hh, hbc⟩
        exact ⟨c2, by simp [hc2], hres⟩

/-- Claim C9 (counterexample): a single-candidate pool whose SequenceMatcher
ratio is exactly 0.80 — not strictly above the threshold — is nevertheless
selected, because the initial best of the loop is FUZZY_NAME_THRESHOLD - 0.001 =
0.799 and 0.80 > 0.799. -/
theorem fuzzy_ratio_exactly_threshold_selected :
    fuzzy_match_name (fun _ => FUZZY_NAME_THRESHOLD) [fixture_pool_candidate] =
      some fixture_pool_candidate
    ∧ ¬ FUZZY_NAME_THRESHOLD < FUZZY_NAME_THRESHOLD := by
  constructor
  · have h : FUZZY_NAME_THRESHOLD - 1 / 1000 < FUZZY_NAME_THRESHOLD :=
      sub_lt_self _ (by norm_num)
    simp [fuzzy_match_name, fuzzy_step, h]
  · exact lt_irrefl _

/-- Claim C9 (amended): the fuzzy matcher (used identically by priority 4 and
priority 5c) selects no candidate iff every pool ratio is at most
FUZZY_NAME_THRESHOLD - 0.001 = 0.799; a selected candidate belongs to the
pool, has ratio strictly above 0.799 (so a ratio of exactly 0.80 is
selected), and its ratio is maximal over the pool. -/
theorem fuzzy_match_name_spec :
    ∀ (ratio_of : CandidateRec → ℚ) (cs : List CandidateRec),
      (fuzzy_match_name ratio_of cs = none ↔
        ∀ c ∈ cs, ratio_of c ≤ FUZZY_NAME_THRESHOLD - 1 / 1000)
      ∧ ∀ c, fuzzy_match_name ratio_of cs = some c →
          c ∈ cs ∧ FUZZY_NAME_THRESHOLD - 1 / 1000 < ratio_of c
          ∧ ∀ c2 ∈ cs, ratio_of c2 ≤ ratio_of c := by
  intro ratio_of cs
  constructor
  · constructor
    · intro hnone
      by_contra hex
      push_neg at hex
      obtain ⟨c, hc, hgt⟩ := hex
      obtain ⟨c2, _, hres⟩ := fuzzy_fold_update ratio_of cs
        (none, FUZZY_NAME_THRESHOLD - 1 / 1000) ⟨c, hc, hgt⟩
      unfold fuzzy_match_name at hnone
      rw [hres] at hnone
      exact Option.some_ne_none c2 hnone
    · intro hall
      unfold fuzzy_match_name
      rw [fuzzy_fold_no_update ratio_of cs (none, FUZZY_NAME_THRESHOLD - 1 / 1000) hall]
  · intro c hsome
    by_cases hex : ∃ c2 ∈ cs, FUZZY_NAME_THRESHOLD - 1 / 1000 < ratio_of c2
    · obtain ⟨c2, hc2, hres⟩ := fuzzy_fold_update ratio_of cs
        (none, FUZZY_NAME_THRESHOLD - 1 / 1000) hex
      unfold fuzzy_match_name at hsome
      rw [hres] at hsome
      cases hsome
      refine ⟨hc2, ?_, ?_⟩
      · obtain ⟨w, hw, hgtw⟩ := hex
        calc FUZZY_NAME_THRESHOLD - 1 / 1000 < ratio_of w := hgtw
          _ ≤ (cs.foldl (fuzzy_step ratio_of) (none, FUZZY_NAME_THRESHOLD - 1 / 1000)).2 :=
            fuzzy_fold_snd_ge_mem ratio_of cs _ w hw
          _ = ratio_of c := by rw [hres]
      · intro c3 hc3
        have := fuzzy_fold_snd_ge_mem ratio_of cs
          (none, FUZZY_NAME_THRESHOLD - 1 / 1000) c3 hc3
        rw [hres] at this
        exact this
    · push_neg at hex
      unfold fuzzy_match_name at hsome
      rw [fuzzy_fold_no_update ratio_of cs (none, FUZZY_NAME_THRESHOLD - 1 / 1000) hex]
        at hsome
      exact absurd hsome (Option.some_ne_none c).symm

/-- Witness for the amended C9 theorem at a concrete input: a pool of one
candidate with ratio 0.9 is selected, lies in the pool, beats 0.799 and is
maximal. -/
theorem fuzzy_match_name_spec_witness :
    fixture_pool_candidate ∈ [fixture_pool_candidate]
    ∧ FUZZY_NAME_THRESHOLD - 1 / 1000 < (fun _ : CandidateRec => (9 : ℚ) / 10)
        fixture_pool_candidate
    ∧ ∀ c2 ∈ [fixture_pool_candidate],
        (fun _ : CandidateRec => (9 : ℚ) / 10) c2 ≤
          (fun _ : CandidateRec => (9 : ℚ) / 10) fixture_pool_candidate := by
  refine (fuzzy_match_name_spec (fun _ => (9 : ℚ) / 10) [fixture_pool_candidate]).2
    fixture_pool_candidate ?_
  have h : FUZZY_NAME_THRESHOLD - 1 / 1000 < (9 : ℚ) / 10 := by
    norm_num [FUZZY_NAME_THRESHOLD]
  simp only [one_div] at h
  simp [fuzzy_match_name, fuzzy_step, h]

/-- A hit in the left part of an appended table is the hit of the whole
table. -/
theorem find_eval_append_left (l1 l2 : List LLMEvaluationRec) (c : Nat)
    (e : LLMEvaluationRec) (h : find_eval l1 c = some e) :
    find_eval (l1 ++ l2) c = some e := by
  unfold find_eval at h ⊢
  induction l1 with
  | nil => simp at h
  | cons a t ih =>
    simp only [List.cons_append, List.find?] at h ⊢
    cases ha : decide (a.call = c) with
    | true => rw [ha] at h; exact h
    | false => rw [ha] at h; exact ih h

/-- A miss in the left part reduces the search to the right part. -/
theorem find_eval_append_none (l1 l2 : List LLMEvaluationRec) (c : Nat)
    (h : find_eval l1 c = none) : find_eval (l1 ++ l2) c = find_eval l2 c := by
  unfold find_eval at h ⊢
  induction l1 with
  | nil => rfl
  | cons a t ih =>
    simp only [List.cons_append, List.find?] at h ⊢
    cases ha : decide (a.call = c) with
    | true => rw [ha] at h; exact Option.noConfusion h
    | false => rw [ha] at h; exact ih h

/-- eval_count distributes over appended tables. -/
theorem eval_count_append (l1 l2 : List LLMEvaluationRec) (c : Nat) :
    eval_count (l1 ++ l2) c = eval_count l1 c + eval_count l2 c := by
  unfold eval_count
  rw [List.filter_append, List.length_append]

/-- A table with no hit for a call holds no row for it. -/
theorem find_eval_none_count (l : List LLMEvaluationRec) (c : Nat)
    (h : find_eval l c = none) : eval_count l c = 0 := by
  unfold find_eval at h
  unfold eval_count
  rw [List.find?_eq_none] at h
  simp only [List.length_eq_zero]
  rw [List.filter_eq_nil_iff]
  intro a ha
  exact h a ha

/-- Claim C2: at most one Evaluation per Call. If an evaluation for the call
exists at lock time (pre-existing or inserted concurrently during the LLM
call), evaluate_call returns it unchanged, creates nothing, runs no outcome
transition and leaves the table as it stood; if none exists it creates
exactly one row for the call and performs the outcome transition; and a table
holding at most one row for any call keeps that property. -/
theorem evaluate_call_at_most_one_evaluation :
    ∀ (pre concurrent : List LLMEvaluationRec) (call_id new_id app_id : Nat)
      (d : ClaudeEvalData),
      (∀ e, find_eval (pre ++ concurrent) call_id = some e →
        evaluate_call pre concurrent call_id new_id app_id d =
          { returned := e, created := none, evals := pre ++ concurrent,
            transitioned := false })
      ∧ (find_eval (pre ++ concurrent) call_id = none →
          (evaluate_call pre concurrent call_id new_id app_id d).created =
            some (evaluate_call pre concurrent call_id new_id app_id d).returned
          ∧ (evaluate_call pre concurrent call_id new_id app_id d).transitioned = true
          ∧ eval_count (evaluate_call pre concurrent call_id new_id app_id d).evals
              call_id = 1)
      ∧ ∀ c2, eval_count (pre ++ concurrent) c2 ≤ 1 →
          eval_count (evaluate_call pre concurrent call_id new_id app_id d).evals c2 ≤ 1 := by
  intro pre concurrent call_id new_id app_id d
  refine ⟨?_, ?_, ?_⟩
  · intro e he
    unfold evaluate_call
    cases hpre : find_eval pre call_id with
    | some e0 =>
      have h2 : find_eval (pre ++ concurrent) call_id = some e0 :=
        find_eval_append_left pre concurrent call_id e0 hpre
      rw [h2] at he
      cases he
      rfl
    | none =>
      rw [he]
  · intro hnone
    have hpre : find_eval pre call_id = none := by
      cases hpre : find_eval pre call_id with
      | none => rfl
      | some e0 =>
        rw [find_eval_append_left pre concurrent call_id e0 hpre] at hnone
        exact absurd hnone (by simp)
    unfold evaluate_call
    rw [hpre, hnone]
    refine ⟨rfl, rfl, ?_⟩
    show eval_count ((pre ++ concurrent) ++ [_]) call_id = 1
    rw [eval_count_append, find_eval_none_count (pre ++ concurrent) call_id hnone]
    simp [eval_count]
  · intro c2 hc2
    unfold evaluate_call
    cases hpre : find_eval pre call_id with
    | some e0 => exact hc2
    | none =>
      cases hlocked : find_eval (pre ++ concurrent) call_id with
      | some e0 => exact hc2
      | none =>
        show eval_count ((pre ++ concurrent) ++ [_]) c2 ≤ 1
        rw [eval_count_append]
        by_cases hsame : call_id = c2
        · subst hsame
          rw [find_eval_none_count (pre ++ concurrent) call_id hlocked]
          simp [eval_count]
        · have hzero : eval_count [⟨new_id, app_id, call_id,
              d.outcome, d.qualified, d.score⟩] c2 = 0 := by
            simp [eval_count, hsame]
          omega

/-- Witness for the C2 theorem at a concrete input: with an evaluation for
call 7 already present, evaluate_call returns it, creates nothing, does not
transition, and the table still holds exactly one row for call 7. -/
theorem evaluate_call_at_most_one_evaluation_witness :
    evaluate_call [fixture_eval_row] [] 7 101 3 fixture_eval_data =
      { returned := fixture_eval_row, created := none,
        evals := [fixture_eval_row] ++ [], transitioned := false }
    ∧ eval_count (evaluate_call [fixture_eval_row] [] 7 101 3 fixture_eval_data).evals 7 ≤ 1 := by
  constructor
  · exact (evaluate_call_at_most_one_evaluation [fixture_eval_row] [] 7 101 3
      fixture_eval_data).1 fixture_eval_row (by decide)
  · exact (evaluate_call_at_most_one_evaluation [fixture_eval_row] [] 7 101 3
      fixture_eval_data).2.2 7 (by decide)

/-- On an application whose status is in the awaiting-CV set, the advance
helper sets cv_received_at, transitions AWAITING_CV_REJECTED to
CV_RECEIVED_REJECTED and every other awaiting status to CV_RECEIVED, and
emits exactly one StatusChange row. -/
theorem advance_awaiting (now : Nat) (a : AppRec) (h : a.status ∈ AWAITING_CV_STATUSES) :
    advance_application_status now a =
      ({ a with
          status := if a.status = AppStatus.awaiting_cv_rejected then
            AppStatus.cv_received_rejected else AppStatus.cv_received,
          cv_received_at := some now },
       [{ application := a.id, from_status := a.status,
          to_status := if a.status = AppStatus.awaiting_cv_rejected then
            AppStatus.cv_received_rejected else AppStatus.cv_received,
          changed_by := none, note := "CV received via inbox flow" }], true) := by
  cases hs : a.status <;>
    simp_all [AWAITING_CV_STATUSES, advance_application_status, set_cv_received,
      transition_status, change_status, hs]

/-- A flat-map whose pieces are singletons has the length of its index
list. -/
theorem flatMap_singleton_length {α β : Type} (f : α → List β) :
    ∀ l : List α, (∀ a ∈ l, (f a).length = 1) → (l.flatMap f).length = l.length := by
  intro l
  induction l with
  | nil => intro _; rfl
  | cons a t ih =>
    intro h
    rw [List.flatMap_cons, List.length_append, h a (by simp), ih (fun x hx => h x (by simp [hx]))]
    simp [Nat.add_comm]

/-- Claim C6: CV multi-application fan-out. With N ≥ 1 applications of the
matched candidate in awaiting-CV statuses, exactly N CVUpload rows are
created, all sharing the file path and match method; each application is
advanced in the same atomic unit — AWAITING_CV_REJECTED to
CV_RECEIVED_REJECTED, every other awaiting status to CV_RECEIVED — with
cv_received_at set and one StatusChange row per application; with N = 0 the
function returns none and the caller falls through to the next priority. -/
theorem process_candidate_match_fanout :
    ∀ (now : Nat) (candidate_apps : List AppRec) (mm : MatchMethod) (nr : Bool)
      (src : CVSource) (fn fp : String),
      (candidate_apps.filter (fun a => decide (a.status ∈ AWAITING_CV_STATUSES)) = [] →
        process_candidate_match now candidate_apps mm nr src fn fp = none)
      ∧ ∀ r, process_candidate_match now candidate_apps mm nr src fn fp = some r →
          r.uploads.length =
            (candidate_apps.filter (fun a => decide (a.status ∈ AWAITING_CV_STATUSES))).length
          ∧ r.audits.length =
              (candidate_apps.filter (fun a => decide (a.status ∈ AWAITING_CV_STATUSES))).length
          ∧ (∀ u ∈ r.uploads, u.file_path = fp ∧ u.match_method = mm ∧ u.needs_review = nr)
          ∧ r.apps =
              (candidate_apps.filter (fun a => decide (a.status ∈ AWAITING_CV_STATUSES))).map
                (fun a =>
                  { a with
                      status := if a.status = AppStatus.awaiting_cv_rejected then
                        AppStatus.cv_received_rejected else AppStatus.cv_received,
                      cv_received_at := some now })
          ∧ (∀ a2 ∈ r.apps, a2.cv_received_at = some now) := by
  intro now candidate_apps mm nr src fn fp
  constructor
  · intro hempty
    unfold process_candidate_match
    rw [hempty]
    rfl
  · intro r hr
    have hmem : ∀ a ∈ candidate_apps.filter
        (fun a => decide (a.status ∈ AWAITING_CV_STATUSES)),
        a.status ∈ AWAITING_CV_STATUSES := by
      intro a ha
      have := List.of_mem_filter ha
      exact of_decide_eq_true this
    unfold process_candidate_match at hr
    by_cases hnil : candidate_apps.filter
        (fun a => decide (a.status ∈ AWAITING_CV_STATUSES)) = []
    · rw [hnil] at hr
      exact absurd hr (by simp)
    · rw [if_neg (by simpa [List.isEmpty_iff] using hnil)] at hr
      cases hr
      refine ⟨by simp, ?_, ?_, ?_, ?_⟩
      · show (List.flatMap _ _).length = _
        apply flatMap_singleton_length
        intro a ha
        rw [advance_awaiting now a (hmem a ha)]
        rfl
      · intro u hu
        obtain ⟨a, _, hau⟩ := List.mem_map.mp hu
        cases hau
        exact ⟨rfl, rfl, rfl⟩
      · show List.map _ _ = _
        apply List.map_congr_left
        intro a ha
        rw [advance_awaiting now a (hmem a ha)]
      · intro a2 ha2
        obtain ⟨a, ha, haa⟩ := List.mem_map.mp ha2
        rw [advance_awaiting now a (hmem a ha)] at haa
        cases haa
        rfl

/-- Witness for the C6 theorem at a concrete input: two awaiting
applications (one qualified-path, one rejected-path) yield two uploads, two
audit rows, shared path and method, and the expected advanced statuses. -/
theorem process_candidate_match_fanout_witness :
    fixture_match_result.uploads.length = 2
    ∧ fixture_match_result.audits.length = 2
    ∧ (∀ u ∈ fixture_match_result.uploads,
        u.file_path = "cvs/u.pdf" ∧ u.match_method = MatchMethod.exact_email
        ∧ u.needs_review = false)
    ∧ (∀ a2 ∈ fixture_match_result.apps, a2.cv_received_at = some 50) := by
  have h := (process_candidate_match_fanout 50 fixture_awaiting_apps MatchMethod.exact_email
    false CVSource.email_attachment "cv.pdf" "cvs/u.pdf").2 fixture_match_result (by decide)
  obtain ⟨h1, h2, h3, _, h5⟩ := h
  refine ⟨?_, ?_, h3, h5⟩
  · rw [h1]; decide
  · rw [h2]; decide
